import Mathlib

/-!
# Verification of the `new_stroop` presentation plugins

Shallow embedding of the two plugins of this repository:

* `packages/plugin-categorize-animation/src/index.ts` — the animation trial
  controller: a periodic frame tick drives a sequence of stimulus images,
  a keyboard callback records a single scored response, feedback is shown,
  and a one-shot timer ends the trial.
* `packages/plugin-vsl-grid-scene/src/index.ts` — the static grid scene
  renderer: builds an HTML table from a 2-D grid of image references,
  mounts it, and schedules a single end-of-trial callback.

The DOM is modelled only insofar as the controller's observable protocol
depends on it (the feedback text written to the feedback element, the
cleared display at trial end); pure presentation mutations (canvas drawing,
prompt visibility, element removal) have no bearing on any stated property
and are noted where they occur in the source.  Timers are modelled by an
explicit clock: the repeating tick fires at multiples of `frame_time`, and
arming the one-shot feedback timer records its absolute expiry time.
-/

namespace CategorizeAnimation

/-- Trial configuration, from the `info.parameters` schema of
`plugin-categorize-animation` (lines 3–82).  `stimuli` is the ordered list
of image paths; `sequence_reps` is an integer with `-1` the "unbounded"
sentinel (the schema default is `1`); `text_answer` defaults to `null`,
modelled as `Option String`.  `choices`, `prompt` and `render_on_canvas`
only affect which key events the host delivers and how frames are drawn,
not the controller's state protocol; they are carried for completeness. -/
structure Config where
  stimuli : List String
  key_answer : String
  choices : List String
  text_answer : Option String
  correct_text : String
  incorrect_text : String
  frame_time : Nat
  sequence_reps : Int
  allow_response_before_complete : Bool
  feedback_duration : Nat
  prompt : Option String
  render_on_canvas : Bool
deriving DecidableEq

/-- The record assigned to `trial_data` in `after_response`
(lines 247–252): stimulus list, reaction time, correctness flag and the
pressed key. -/
structure ResultRecord where
  stimulus : List String
  rt : Nat
  correct : Bool
  response : String
deriving DecidableEq

/-- The mutable trial state captured by the closures of `trial`
(lines 98–105 and the timer bookkeeping):

* `animate_frame`, `reps`, `showAnimation`, `responded`, `timeoutSet`,
  `correct` are the source's local variables (`correct` is declared
  uninitialised, hence `Option Bool`);
* `trial_data` is `{}` until a response is recorded, hence
  `Option ResultRecord`;
* `listenerActive` models the keyboard-listener registration
  (registered at line 257, cancelled at line 254);
* `timeoutsScheduled` counts calls to `pluginAPI.setTimeout` made by the
  tick callback, and `endAt` records the absolute expiry time of the armed
  end-of-trial timer;
* `feedback` is the text last written to the feedback element
  (lines 198–211), `none` while no feedback has been rendered;
* `now` is the absolute time of the most recent tick — `setInterval`
  fires at multiples of `frame_time`. -/
structure RunState where
  animate_frame : Int
  reps : Nat
  showAnimation : Bool
  responded : Bool
  timeoutSet : Bool
  correct : Option Bool
  trial_data : Option ResultRecord
  listenerActive : Bool
  timeoutsScheduled : Nat
  feedback : Option String
  now : Nat
  endAt : Option Nat
deriving DecidableEq

/-- The variable initialisation at the top of `trial` (lines 98–105,
229–230, 257): frame index `-1`, zero completed repetitions, animation
running, no response, no timer armed, keyboard listener registered. -/
def initState : RunState :=
  { animate_frame := -1
    reps := 0
    showAnimation := true
    responded := false
    timeoutSet := false
    correct := none
    trial_data := none
    listenerActive := true
    timeoutsScheduled := 0
    feedback := none
    now := 0
    endAt := none }

/-- JavaScript `String(null)` coercion: the replacement argument of
`String.prototype.replace` is stringified, so a `null` `text_answer`
becomes the text `"null"`. -/
def ansString : Option String → String
  | some s => s
  | none => "null"

/-- First-occurrence replacement on character lists: the semantics of
JavaScript `String.prototype.replace` with a string pattern (the `$`
substitution forms in the replacement are not modelled; no configuration in
this repository uses them).  If the pattern never occurs the input is
returned unchanged. -/
def replaceFirstAux (pat rep : List Char) : List Char → List Char
  | [] => if pat.isPrefixOf ([] : List Char) then rep else []
  | c :: cs =>
    if pat.isPrefixOf (c :: cs) then rep ++ (c :: cs).drop pat.length
    else c :: replaceFirstAux pat rep cs

/-- `s.replace(pat, rep)` for JavaScript strings: replace the first
occurrence of `pat` in `s` by `rep`, or return `s` unchanged when `pat`
does not occur. -/
def jsReplace (s pat rep : String) : String :=
  ⟨replaceFirstAux pat.data rep.data s.data⟩

/-- Whether `pat` occurs as a contiguous substring of `s`. -/
def containsSubstr (pat : List Char) : List Char → Bool
  | [] => pat.isPrefixOf ([] : List Char)
  | c :: cs => pat.isPrefixOf (c :: cs) || containsSubstr pat cs

/-- The feedback-text computation of the tick callback (lines 198–203):
choose `correct_text` when `correct` is truthy (JavaScript `if (correct)`;
the declared-but-unset `correct` is falsy), otherwise `incorrect_text`,
then replace the first `%ANS%` token with the stringified `text_answer`. -/
def feedback_text (cfg : Config) (correct : Option Bool) : String :=
  if correct = some true then
    jsReplace cfg.correct_text "%ANS%" (ansString cfg.text_answer)
  else
    jsReplace cfg.incorrect_text "%ANS%" (ansString cfg.text_answer)

/-- One firing of the `animate_interval` callback (lines 133–221), at time
`st.now + frame_time`.

* lines 137–146: pre-increment the frame index; on reaching
  `stimuli.length`, wrap to `0`, count a repetition, and — when
  `sequence_reps` is not the `-1` sentinel and the repetition target is
  reached — clear `showAnimation`;
* lines 148–163: stimulus drawing, DOM only;
* lines 165–193: the two `!responded` branches touch only prompt
  visibility and canvas removal, DOM only;
* lines 194–220: once responded, render the feedback text and — guarded by
  `timeoutSet` — arm the one-shot end-of-trial timer for
  `feedback_duration` ms from this tick. -/
def tick (cfg : Config) (st : RunState) : RunState :=
  let now := st.now + cfg.frame_time
  let f := st.animate_frame + 1
  let st1 :=
    if f = (cfg.stimuli.length : Int) then
      let reps := st.reps + 1
      { st with
        animate_frame := 0
        reps := reps
        now := now
        showAnimation :=
          if cfg.sequence_reps ≠ -1 ∧ cfg.sequence_reps ≤ (reps : Int) then
            false
          else st.showAnimation }
    else { st with animate_frame := f, now := now }
  if st1.responded then
    let st2 := { st1 with feedback := some (feedback_text cfg st1.correct) }
    if st2.timeoutSet then st2
    else
      { st2 with
        timeoutSet := true
        timeoutsScheduled := st2.timeoutsScheduled + 1
        endAt := some (st2.now + cfg.feedback_duration) }
  else st1

/-- Modelled from the spec: `compareKeys` is host-engine code (the
`packages/jspsych` core of this repository, not present under `src/`).
§4.2 of the spec: "compute `correct` by case-sensitive comparison of the
observed key against the expected key"; modelled as case-sensitive string
equality.  (§6 notes the exact policy is owned by the host.) -/
def compareKeys (expected observed : String) : Bool :=
  expected == observed

/-- The keyboard callback `after_response` (lines 233–255) for a key `k`
delivered at time `rt`: the event is ignored while the animation is playing
unless `allow_response_before_complete` (lines 236–238); otherwise score
the key against `key_answer`, set `responded`, record `trial_data`, and
cancel the keyboard listener. -/
def after_response (cfg : Config) (k : String) (rt : Nat) (st : RunState) :
    RunState :=
  if cfg.allow_response_before_complete = false ∧ st.showAnimation = true then
    st
  else
    let correct := compareKeys cfg.key_answer k
    { st with
      correct := some correct
      responded := true
      trial_data :=
        some { stimulus := cfg.stimuli, rt := rt, correct := correct,
               response := k }
      listenerActive := false }

/-- The data handed to the host's completion sink by `endTrial`
(lines 223–227): `finishTrial(trial_data)` after the interval is cleared
and the display emptied. -/
def endTrial (st : RunState) : Option ResultRecord :=
  st.trial_data

/-- The two event sources that drive one trial: the periodic frame tick and
a delivered key event (key and delivery time). -/
inductive Event where
  | tick : Event
  | key : String → Nat → Event

/-- One delivered event.  A key event reaches `after_response` only while
the keyboard listener is registered: the host guarantees (spec §5) that
once the listener is deregistered no further key events are delivered. -/
def stepE (cfg : Config) (st : RunState) : Event → RunState
  | Event.tick => tick cfg st
  | Event.key k t => if st.listenerActive then after_response cfg k t st else st

/-- The trial state after a sequence of delivered events, starting from the
freshly initialised trial. -/
def run (cfg : Config) (es : List Event) : RunState :=
  es.foldl (stepE cfg) initState

/-- The trial state reached after `q` complete sequence passes plus `r`
further ticks (so after `q * stimuli.length + r` firings of the interval),
before any response, for a finite repetition target `R ≥ 1`: frame index
`r - 1`, `q` counted repetitions, animation running iff `q < R`. -/
def animState (cfg : Config) (R q r : Nat) : RunState :=
  { animate_frame := (r : Int) - 1
    reps := q
    showAnimation := decide (q < R)
    responded := false
    timeoutSet := false
    correct := none
    trial_data := none
    listenerActive := true
    timeoutsScheduled := 0
    feedback := none
    now := (q * cfg.stimuli.length + r) * cfg.frame_time
    endAt := none }

/-- Bookkeeping invariant for the one-shot end-of-trial timer: the number
of `setTimeout` calls made so far is `1` when the `timeoutSet` guard is
set and `0` otherwise. -/
def timerInv (st : RunState) : Prop :=
  st.timeoutsScheduled = if st.timeoutSet then 1 else 0

/-- The frame index is a valid index into the stimulus list. -/
def frameInRange (cfg : Config) (st : RunState) : Prop :=
  0 ≤ st.animate_frame ∧ st.animate_frame < (cfg.stimuli.length : Int)

/-- Result-record invariant: the end-of-trial timer is armed only once a
response exists, and a response always comes with a fully populated
`trial_data` record carrying the stimulus list. -/
def dataInv (cfg : Config) (st : RunState) : Prop :=
  (st.timeoutSet = true → st.responded = true) ∧
  (st.responded = true → ∃ rt c k,
    st.trial_data =
      some { stimulus := cfg.stimuli, rt := rt, correct := c, response := k })

/-- A minimal concrete configuration: one stimulus, one repetition,
otherwise the schema defaults. -/
def cfgOne : Config :=
  { stimuli := ["a"]
    key_answer := "j"
    choices := []
    text_answer := none
    correct_text := "Correct."
    incorrect_text := "Wrong."
    frame_time := 100
    sequence_reps := 1
    allow_response_before_complete := false
    feedback_duration := 2000
    prompt := none
    render_on_canvas := true }

/-- The configuration of the spec's timing scenario (§8): three stimuli,
100 ms frames, two repetitions, responses gated until the animation is
done, expected key "j". -/
def cfgC2 : Config :=
  { cfgOne with
    stimuli := ["a", "b", "c"]
    sequence_reps := 2 }

/-- A configuration with the unbounded-repetition sentinel `-1`. -/
def cfgUnb : Config :=
  { cfgOne with sequence_reps := -1 }

/-- A configuration accepting responses while the animation plays. -/
def cfgAllow : Config :=
  { cfgOne with allow_response_before_complete := true }

end CategorizeAnimation

namespace VslGridScene

/-- A grid cell of `plugin-vsl-grid-scene`: the source compares
`pattern[row][col] !== 0`, so a cell is either the number `0` (empty,
modelled `none`) or an image path (modelled `some src`). -/
abbrev Cell := Option String

/-- Trial configuration of `plugin-vsl-grid-scene` (lines 3–28): the 2-D
grid of cells, the `[width, height]` image size, and the display
duration. -/
structure Config where
  stimuli : List (List Cell)
  image_size : List Nat
  trial_duration : Nat
deriving DecidableEq

/-- `generate_stimulus` (lines 67–129): build the table markup.  The row
count is `pattern.length` and the column count is taken from the first row
(`pattern[0].length`); ragged grids are out of contract (spec §4.1) and
out-of-range accesses are modelled as empty cells.  The paddings
`image_size[1]/10` and `image_size[0]/10` are JavaScript number divisions,
modelled on `Nat` (exact for the multiple-of-ten sizes the schema
defaults to; no stated property depends on the quotient). -/
def generate_stimulus (pattern : List (List Cell)) (image_size : List Nat) :
    String :=
  let nrows := pattern.length
  let ncols := (pattern.headD []).length
  let w := image_size.getD 0 0
  let h := image_size.getD 1 0
  let cell := fun (row col : Nat) =>
    "<td id=\"jspsych-vsl-grid-scene-table-" ++ toString row ++ "-" ++
      toString col ++ "\" " ++
      "style=\"padding: " ++ toString (h / 10) ++ "px " ++
      toString (w / 10) ++ "px; border: 1px solid #555;\">" ++
      "<div id=\"jspsych-vsl-grid-scene-table-cell-" ++ toString row ++
      "-" ++ toString col ++ "\" style=\"width: " ++ toString w ++
      "px; height: " ++ toString h ++ "px;\">" ++
      (match (pattern.getD row []).getD col none with
       | some src =>
         "<img src=\"" ++ src ++ "\" style=\"width: " ++ toString w ++
           "px; height: " ++ toString h ++ "\"></img>"
       | none => "") ++
      "</div>" ++ "</td>"
  let rowHtml := fun (row : Nat) =>
    "<tr id=\"jspsych-vsl-grid-scene-table-row-" ++ toString row ++
      "\" css=\"height: " ++ toString h ++ "px;\">" ++
      String.join ((List.range ncols).map (cell row)) ++ "</tr>"
  "<div id=\"jspsych-vsl-grid-scene-dummy\" css=\"display: none;\">" ++
    "<table id=\"jspsych-vsl-grid-scene table\" " ++
    "style=\"border-collapse: collapse; margin-left: auto; margin-right: auto;\">" ++
    String.join ((List.range nrows).map rowHtml) ++
    "</table>" ++ "</div>"

/-- The observable effects of one grid-scene trial: the markup mounted at
invocation, the delays of the one-shot timers scheduled by `trial`, the
display content written by `endTrial`, and the `stimulus` field of the
record handed to `finishTrial`. -/
structure SceneTrace where
  mounted : String
  scheduled : List Nat
  endDisplay : String
  finishedData : List (List Cell)
deriving DecidableEq

/-- The `trial` method (lines 49–65): mount the generated markup, schedule
one callback after `trial_duration`, and let that callback (`endTrial`)
clear the display and report `{ stimulus: trial.stimuli }`. -/
def trial (cfg : Config) : SceneTrace :=
  { mounted := generate_stimulus cfg.stimuli cfg.image_size
    scheduled := [cfg.trial_duration]
    endDisplay := ""
    finishedData := cfg.stimuli }

end VslGridScene

namespace CategorizeAnimation

lemma initState_eq_animState (cfg : Config) (R : Nat) (hR1 : 1 ≤ R) :
    initState = animState cfg R 0 0 := by
  have h0 : 0 < R := hR1
  simp [initState, animState, h0]

lemma tick_animState_lt (cfg : Config) (R q r : Nat)
    (hr : r < cfg.stimuli.length) :
    tick cfg (animState cfg R q r) = animState cfg R q (r + 1) := by
  have hne : ((r : Int) - 1) + 1 ≠ (cfg.stimuli.length : Int) := by
    intro h
    have : (r : Int) = (cfg.stimuli.length : Int) := by omega
    omega
  simp only [tick, animState, if_neg hne, if_neg Bool.false_ne_true,
    RunState.mk.injEq, and_true, true_and]
  constructor
  · omega
  · ring

lemma tick_animState_wrap (cfg : Config) (R q : Nat)
    (hR : cfg.sequence_reps = (R : Int)) :
    tick cfg (animState cfg R q cfg.stimuli.length) =
      animState cfg R (q + 1) 1 := by
  have heq : ((cfg.stimuli.length : Int) - 1) + 1 = (cfg.stimuli.length : Int) := by
    omega
  simp only [tick, animState, if_pos heq, if_neg Bool.false_ne_true,
    RunState.mk.injEq, and_true, true_and]
  refine ⟨by omega, ?_, by ring⟩
  -- the showAnimation update
  rw [hR]
  by_cases hlt : q + 1 < R
  · rw [if_neg (by omega), decide_eq_true hlt, decide_eq_true (by omega)]
  · rw [if_pos ⟨by omega, by omega⟩, eq_comm, decide_eq_false (by omega)]

lemma iterate_tick_eq_animState (cfg : Config) (R : Nat)
    (hL : 1 ≤ cfg.stimuli.length) (hR : cfg.sequence_reps = (R : Int))
    (hR1 : 1 ≤ R) :
    ∀ q r, 1 ≤ r → r ≤ cfg.stimuli.length →
      (tick cfg)^[q * cfg.stimuli.length + r] initState = animState cfg R q r := by
  intro q
  induction q with
  | zero =>
    intro r h1
    induction r, h1 using Nat.le_induction with
    | base =>
      intro _
      rw [Nat.zero_mul, Nat.zero_add, Function.iterate_one,
        initState_eq_animState cfg R hR1]
      exact tick_animState_lt cfg R 0 0 hL
    | succ r hr ih =>
      intro h2
      rw [show 0 * cfg.stimuli.length + (r + 1)
            = (0 * cfg.stimuli.length + r) + 1 by omega,
        Function.iterate_succ_apply', ih (by omega)]
      exact tick_animState_lt cfg R 0 r (by omega)
  | succ q ihq =>
    intro r h1
    induction r, h1 using Nat.le_induction with
    | base =>
      intro _
      rw [show (q + 1) * cfg.stimuli.length + 1
            = (q * cfg.stimuli.length + cfg.stimuli.length) + 1 by ring,
        Function.iterate_succ_apply', ihq cfg.stimuli.length hL (le_refl _)]
      exact tick_animState_wrap cfg R q hR
    | succ r hr ih =>
      intro h2
      rw [show (q + 1) * cfg.stimuli.length + (r + 1)
            = ((q + 1) * cfg.stimuli.length + r) + 1 by omega,
        Function.iterate_succ_apply', ih (by omega)]
      exact tick_animState_lt cfg R (q + 1) r (by omega)

/-- C1, counterexample: with one stimulus and one repetition the claim
would make `showAnimation` false after `L × R = 1` frame-index increments,
but after one tick the flag is still true — the pre-increment/wraparound
logic clears it only on the following tick. -/
theorem anim_still_running_after_LR_ticks :
    ((tick cfgOne)^[1] initState).showAnimation = true := by decide

/-- C1 (amended): for every sequence length `L ≥ 1` and finite repetition
target `R ≥ 1`, `showAnimation` stays true through the first `L × R` frame
ticks and first becomes false on tick `L × R + 1`; so `L × R + 1`
frame-index increments occur up to and including the tick that clears the
flag (the last one being the wraparound increment, immediately reset
to 0), not `L × R`. -/
theorem anim_stops_on_tick_LR_succ (cfg : Config) (R : Nat)
    (hL : 1 ≤ cfg.stimuli.length) (hR : cfg.sequence_reps = (R : Int))
    (hR1 : 1 ≤ R) :
    (∀ n, n ≤ cfg.stimuli.length * R →
      ((tick cfg)^[n] initState).showAnimation = true) ∧
    ((tick cfg)^[cfg.stimuli.length * R + 1] initState).showAnimation
      = false := by
  constructor
  · intro n hn
    rcases Nat.eq_zero_or_pos n with h0 | h1
    · subst h0; rfl
    · have hq : (n - 1) / cfg.stimuli.length < R := by
        rw [Nat.div_lt_iff_lt_mul (by omega)]
        calc n - 1 < n := Nat.sub_lt h1 Nat.one_pos
          _ ≤ cfg.stimuli.length * R := hn
          _ = R * cfg.stimuli.length := Nat.mul_comm _ _
      have hrlt : (n - 1) % cfg.stimuli.length < cfg.stimuli.length :=
        Nat.mod_lt _ (by omega)
      have hdm : (n - 1) / cfg.stimuli.length * cfg.stimuli.length
          + (n - 1) % cfg.stimuli.length = n - 1 :=
        Nat.div_add_mod' (n - 1) cfg.stimuli.length
      have hn' : n = (n - 1) / cfg.stimuli.length * cfg.stimuli.length
          + ((n - 1) % cfg.stimuli.length + 1) := by
        rw [← Nat.add_assoc, hdm]
        omega
      have hmain := iterate_tick_eq_animState cfg R hL hR hR1
        ((n - 1) / cfg.stimuli.length) ((n - 1) % cfg.stimuli.length + 1)
        (by omega) (by omega)
      rw [← hn'] at hmain
      rw [hmain]
      simp [animState, hq]
  · have hmain := iterate_tick_eq_animState cfg R hL hR hR1 R 1
      (le_refl 1) hL
    have hidx : cfg.stimuli.length * R + 1 = R * cfg.stimuli.length + 1 := by
      rw [Nat.mul_comm]
    rw [hidx, hmain]
    simp [animState]

/-- Witness for the amended C1 at the concrete one-stimulus,
one-repetition configuration: the flag clears on tick `1 × 1 + 1 = 2`. -/
theorem anim_stops_on_tick_LR_succ_witness :
    ((tick cfgOne)^[2] initState).showAnimation = false :=
  (anim_stops_on_tick_LR_succ cfgOne 1 (by decide) (by decide)
    (by decide)).2

/-- C2, counterexample: in the spec's scenario (three stimuli, 100 ms
frames, two repetitions, gated responses) a key delivered at t = 650 ms
arrives after six ticks, but `showAnimation` is still true there — the
flag clears only on the seventh tick at t = 700 ms — so `after_response`
ignores the event and leaves the trial state unchanged instead of
accepting it. -/
theorem c2_key_at_650_ignored :
    ((tick cfgC2)^[6] initState).showAnimation = true ∧
      after_response cfgC2 "j" 650 ((tick cfgC2)^[6] initState)
        = (tick cfgC2)^[6] initState := by decide

/-- C2 (amended): the animation of the scenario finishes on the seventh
tick (t = 700 ms, not after six ticks); a key "j" delivered after that,
at t = 750 ms, is accepted with `correct = true` and the full result
record, the next tick (t = 800 ms) renders the correct-feedback text and
arms the end-of-trial timer, and the trial ends at 800 ms +
`feedback_duration`. -/
theorem c2_key_after_seventh_tick_accepted :
    ((tick cfgC2)^[7] initState).showAnimation = false ∧
    ((tick cfgC2)^[7] initState).now = 700 ∧
    (after_response cfgC2 "j" 750 ((tick cfgC2)^[7] initState)).responded
      = true ∧
    (after_response cfgC2 "j" 750 ((tick cfgC2)^[7] initState)).correct
      = some true ∧
    (after_response cfgC2 "j" 750 ((tick cfgC2)^[7] initState)).trial_data
      = some { stimulus := ["a", "b", "c"], rt := 750, correct := true,
               response := "j" } ∧
    (tick cfgC2 (after_response cfgC2 "j" 750
        ((tick cfgC2)^[7] initState))).feedback = some "Correct." ∧
    (tick cfgC2 (after_response cfgC2 "j" 750
        ((tick cfgC2)^[7] initState))).timeoutSet = true ∧
    (tick cfgC2 (after_response cfgC2 "j" 750
        ((tick cfgC2)^[7] initState))).endAt
      = some (800 + cfgC2.feedback_duration) := by decide

lemma timerInv_tick (cfg : Config) (st : RunState) (h : timerInv st) :
    timerInv (tick cfg st) := by
  unfold timerInv at h ⊢
  unfold tick
  by_cases hw : st.animate_frame + 1 = (cfg.stimuli.length : Int) <;>
    by_cases hr : st.responded <;>
      by_cases ht : st.timeoutSet <;>
        simp_all

lemma timerInv_after_response (cfg : Config) (k : String) (t : Nat)
    (st : RunState) (h : timerInv st) :
    timerInv (after_response cfg k t st) := by
  unfold timerInv at h ⊢
  unfold after_response
  split <;> simp_all

lemma timerInv_stepE (cfg : Config) (st : RunState) (e : Event)
    (h : timerInv st) : timerInv (stepE cfg st e) := by
  cases e with
  | tick => exact timerInv_tick cfg st h
  | key k t =>
    simp only [stepE]
    split
    · exact timerInv_after_response cfg k t st h
    · exact h

lemma timerInv_foldl (cfg : Config) :
    ∀ (es : List Event) (st : RunState), timerInv st →
      timerInv (es.foldl (stepE cfg) st) := by
  intro es
  induction es with
  | nil => intro st h; exact h
  | cons e es ih =>
    intro st h
    rw [List.foldl_cons]
    exact ih _ (timerInv_stepE cfg st e h)

/-- C3 (confirmed): along every sequence of delivered events, the
`timeoutSet` guard lets the tick callback call the host's one-shot timer
at most once — no matter how many ticks fire after `responded` is set. -/
theorem end_timer_armed_at_most_once (cfg : Config) (es : List Event) :
    (run cfg es).timeoutsScheduled ≤ 1 := by
  have h := timerInv_foldl cfg es initState (by simp [timerInv, initState])
  unfold run
  unfold timerInv at h
  rw [h]
  split <;> simp

/-- C4 (confirmed): a key event delivered while the animation is playing
and `allow_response_before_complete` is false leaves the whole trial state
— `responded`, `correct`, the result record and the keyboard-listener
registration — unchanged. -/
theorem response_ignored_while_animating (cfg : Config) (k : String)
    (t : Nat) (st : RunState)
    (hallow : cfg.allow_response_before_complete = false)
    (hshow : st.showAnimation = true) :
    after_response cfg k t st = st := by
  unfold after_response
  rw [if_pos ⟨hallow, hshow⟩]

/-- Witness for C4 at a concrete gated configuration and the initial
(animating) state. -/
theorem response_ignored_while_animating_witness :
    after_response cfgOne "j" 5 initState = initState :=
  response_ignored_while_animating cfgOne "j" 5 initState (by decide)
    (by decide)

lemma show_preserved_stepE (cfg : Config) (hcfg : cfg.sequence_reps = -1)
    (st : RunState) (e : Event) :
    (stepE cfg st e).showAnimation = st.showAnimation := by
  cases e with
  | tick =>
    unfold stepE tick
    by_cases hw : st.animate_frame + 1 = (cfg.stimuli.length : Int) <;>
      by_cases hr : st.responded <;>
        by_cases ht : st.timeoutSet <;>
          simp_all
  | key k t =>
    simp only [stepE]
    split
    · unfold after_response
      split <;> simp
    · rfl

/-- C5 (confirmed): with the unbounded sentinel `sequence_reps = -1`, no
tick (and no other delivered event) ever clears `showAnimation`: after any
event sequence the animation is still running. -/
theorem unbounded_reps_never_stop (cfg : Config) (es : List Event)
    (hcfg : cfg.sequence_reps = -1) :
    (run cfg es).showAnimation = true := by
  unfold run
  have main : ∀ (es : List Event) (st : RunState),
      st.showAnimation = true →
      (es.foldl (stepE cfg) st).showAnimation = true := by
    intro es
    induction es with
    | nil => intro st h; exact h
    | cons e es ih =>
      intro st h
      rw [List.foldl_cons]
      exact ih _ ((show_preserved_stepE cfg hcfg st e).trans h)
  exact main es initState rfl

/-- Witness for C5: three ticks under the unbounded configuration leave
the animation running. -/
theorem unbounded_reps_never_stop_witness :
    (run cfgUnb [Event.tick, Event.tick, Event.tick]).showAnimation
      = true :=
  unbounded_reps_never_stop cfgUnb [Event.tick, Event.tick, Event.tick]
    (by decide)

lemma replaceFirstAux_of_not_contains (pat rep : List Char) :
    ∀ s, containsSubstr pat s = false → replaceFirstAux pat rep s = s := by
  intro s
  induction s with
  | nil =>
    intro h
    unfold containsSubstr at h
    unfold replaceFirstAux
    simp_all
  | cons c cs ih =>
    intro h
    unfold containsSubstr at h
    unfold replaceFirstAux
    rw [Bool.or_eq_false_iff] at h
    rw [if_neg (by simp [h.1]), ih h.2]

/-- C6 (confirmed): the feedback text is the correct-text template when
`correct` is true and the incorrect-text template when it is false, with
the first `%ANS%` token replaced by the configured answer label; a
template without the token passes through verbatim, and the template
"Correct! Answer: %ANS%" with label "cat" yields
"Correct! Answer: cat". -/
theorem feedback_text_selection_and_substitution (cfg : Config) :
    (feedback_text cfg (some true)
      = jsReplace cfg.correct_text "%ANS%" (ansString cfg.text_answer)) ∧
    (feedback_text cfg (some false)
      = jsReplace cfg.incorrect_text "%ANS%" (ansString cfg.text_answer)) ∧
    (∀ s rep : String, containsSubstr "%ANS%".data s.data = false →
      jsReplace s "%ANS%" rep = s) ∧
    feedback_text
        { cfgOne with correct_text := "Correct! Answer: %ANS%",
                      text_answer := some "cat" } (some true)
      = "Correct! Answer: cat" := by
  refine ⟨rfl, by simp [feedback_text], ?_, by decide⟩
  intro s rep h
  unfold jsReplace
  rw [replaceFirstAux_of_not_contains _ _ _ h]

/-- Witness for C6: the default incorrect-text template "Wrong." contains
no token and is returned verbatim. -/
theorem feedback_text_selection_and_substitution_witness :
    jsReplace "Wrong." "%ANS%" "cat" = "Wrong." :=
  (feedback_text_selection_and_substitution cfgOne).2.2.1 "Wrong." "cat"
    (by decide)

/-- C7 (confirmed against the spec-modelled `compareKeys`): for every
qualifying key event — one not discarded by the gating guard — the
recorded `correct` flag is true exactly when the observed key equals the
configured `key_answer` as case-sensitive strings. -/
theorem correct_flag_case_sensitive (cfg : Config) (k : String) (t : Nat)
    (st : RunState)
    (h : ¬(cfg.allow_response_before_complete = false
        ∧ st.showAnimation = true)) :
    ((after_response cfg k t st).correct = some true ↔ cfg.key_answer = k)
    := by
  unfold after_response
  rw [if_neg h]
  simp [compareKeys]

/-- Witness for C7: after the animation has finished, key "j" against
expected key "j" scores correct. -/
theorem correct_flag_case_sensitive_witness :
    ((after_response cfgOne "j" 650
        { initState with showAnimation := false }).correct = some true
      ↔ cfgOne.key_answer = "j") :=
  correct_flag_case_sensitive cfgOne "j" 650
    { initState with showAnimation := false } (by decide)

lemma frameInRange_tick (cfg : Config) (hL : 1 ≤ cfg.stimuli.length)
    (st : RunState)
    (h : st.animate_frame = -1 ∨ frameInRange cfg st) :
    frameInRange cfg (tick cfg st) := by
  unfold frameInRange at h ⊢
  unfold tick
  by_cases hw : st.animate_frame + 1 = (cfg.stimuli.length : Int) <;>
    by_cases hr : st.responded <;>
      by_cases ht : st.timeoutSet <;>
        simp_all <;> omega

lemma frame_preserved_key (cfg : Config) (k : String) (t : Nat)
    (st : RunState) :
    (stepE cfg st (Event.key k t)).animate_frame = st.animate_frame := by
  simp only [stepE]
  split
  · unfold after_response
    split <;> simp
  · rfl

lemma frameInRange_foldl (cfg : Config) (hL : 1 ≤ cfg.stimuli.length) :
    ∀ (es : List Event) (st : RunState), frameInRange cfg st →
      frameInRange cfg (es.foldl (stepE cfg) st) := by
  intro es
  induction es with
  | nil => intro st h; exact h
  | cons e es ih =>
    intro st h
    rw [List.foldl_cons]
    refine ih _ ?_
    cases e with
    | tick => exact frameInRange_tick cfg hL st (Or.inr h)
    | key k t =>
      unfold frameInRange at h ⊢
      rw [frame_preserved_key]
      exact h

/-- C8, counterexample: at trial start — a point of the trial at which
`showAnimation` is already true and the keyboard listener is about to be
registered — the frame index is `-1`, outside `[0, stimuli.length)`. -/
theorem frame_negative_at_trial_start :
    initState.showAnimation = true ∧ initState.animate_frame < 0 := by
  decide

/-- C8 (amended): once at least one frame tick has fired, the frame index
stays in `[0, stimuli.length)` at every point of the trial (whether or not
`showAnimation` is still true); before the first tick it is `-1`. -/
theorem frame_in_range_after_first_tick (cfg : Config) (es : List Event)
    (hL : 1 ≤ cfg.stimuli.length) (ht : Event.tick ∈ es) :
    0 ≤ (run cfg es).animate_frame ∧
      (run cfg es).animate_frame < (cfg.stimuli.length : Int) := by
  unfold run
  have main : ∀ (es : List Event) (st : RunState),
      st.animate_frame = -1 ∨ frameInRange cfg st → Event.tick ∈ es →
      frameInRange cfg (es.foldl (stepE cfg) st) := by
    intro es
    induction es with
    | nil => intro st _ hmem; cases hmem
    | cons e es ih =>
      intro st h hmem
      rw [List.foldl_cons]
      cases e with
      | tick =>
        exact frameInRange_foldl cfg hL es _ (frameInRange_tick cfg hL st h)
      | key k t =>
        have hmem' : Event.tick ∈ es := by
          rcases List.mem_cons.mp hmem with h1 | h1
          · exact absurd h1 (by simp)
          · exact h1
        refine ih _ ?_ hmem'
        rcases h with h | h
        · exact Or.inl ((frame_preserved_key cfg k t st).trans h)
        · refine Or.inr ?_
          unfold frameInRange at h ⊢
          rw [frame_preserved_key]
          exact h
  exact main es initState (Or.inl rfl) ht

/-- Witness for the amended C8: one tick on the one-stimulus configuration
puts the frame index into `[0, 1)`. -/
theorem frame_in_range_after_first_tick_witness :
    0 ≤ (run cfgOne [Event.tick]).animate_frame ∧
      (run cfgOne [Event.tick]).animate_frame
        < (cfgOne.stimuli.length : Int) :=
  frame_in_range_after_first_tick cfgOne [Event.tick] (by decide)
    (List.Mem.head _)

lemma dataInv_tick (cfg : Config) (st : RunState) (h : dataInv cfg st) :
    dataInv cfg (tick cfg st) := by
  unfold dataInv at h ⊢
  unfold tick
  by_cases hw : st.animate_frame + 1 = (cfg.stimuli.length : Int) <;>
    by_cases hr : st.responded <;>
      by_cases ht : st.timeoutSet <;>
        simp_all

lemma dataInv_stepE (cfg : Config) (st : RunState) (e : Event)
    (h : dataInv cfg st) : dataInv cfg (stepE cfg st e) := by
  cases e with
  | tick => exact dataInv_tick cfg st h
  | key k t =>
    simp only [stepE]
    split
    · unfold dataInv at h ⊢
      unfold after_response
      split
      · exact h
      · refine ⟨fun _ => rfl, fun _ => ?_⟩
        exact ⟨t, compareKeys cfg.key_answer k, k, rfl⟩
    · exact h

lemma dataInv_run (cfg : Config) (es : List Event) :
    dataInv cfg (run cfg es) := by
  unfold run
  have main : ∀ (es : List Event) (st : RunState), dataInv cfg st →
      dataInv cfg (es.foldl (stepE cfg) st) := by
    intro es
    induction es with
    | nil => intro st h; exact h
    | cons e es ih =>
      intro st h
      rw [List.foldl_cons]
      exact ih _ (dataInv_stepE cfg st e h)
  refine main es initState ⟨fun h => ?_, fun h => ?_⟩ <;> cases h

/-- C10 (confirmed): whenever the end-of-trial timer has been armed — the
only path to `endTrial` — a qualifying response has been recorded, and the
record `endTrial` hands to the host's completion sink carries the stimulus
sequence together with a reaction time, a correctness flag and the pressed
key; an empty record is never delivered. -/
theorem trial_end_requires_response (cfg : Config) (es : List Event)
    (h : (run cfg es).timeoutSet = true) :
    (run cfg es).responded = true ∧
    ∃ rt c k, endTrial (run cfg es)
      = some { stimulus := cfg.stimuli, rt := rt, correct := c,
               response := k } := by
  have hd := dataInv_run cfg es
  exact ⟨hd.1 h, hd.2 (hd.1 h)⟩

/-- Witness for C10: an accepted early response followed by one tick arms
the timer, and the delivered record is fully populated. -/
theorem trial_end_requires_response_witness :
    (run cfgAllow [Event.key "j" 50, Event.tick]).timeoutSet = true ∧
      ((run cfgAllow [Event.key "j" 50, Event.tick]).responded = true ∧
        ∃ rt c k, endTrial (run cfgAllow [Event.key "j" 50, Event.tick])
          = some { stimulus := cfgAllow.stimuli, rt := rt, correct := c,
                   response := k }) :=
  ⟨by decide,
    trial_end_requires_response cfgAllow [Event.key "j" 50, Event.tick]
      (by decide)⟩

end CategorizeAnimation

/-- C9 (confirmed): for every grid and duration, the scene renderer mounts
the generated markup, schedules exactly one delayed callback, with exactly
the configured trial duration, and that callback clears the mount point
and reports the stimuli grid unchanged as the trial's result data. -/
theorem scene_schedules_once_and_reports_grid (cfg : VslGridScene.Config) :
    (VslGridScene.trial cfg).scheduled = [cfg.trial_duration] ∧
    (VslGridScene.trial cfg).endDisplay = "" ∧
    (VslGridScene.trial cfg).finishedData = cfg.stimuli ∧
    (VslGridScene.trial cfg).mounted
      = VslGridScene.generate_stimulus cfg.stimuli cfg.image_size :=
  ⟨rfl, rfl, rfl, rfl⟩
